import Mathlib

/-!
Verification of the headline-extraction / prefecture-classification pipeline
(`src/main.py`): a shallow embedding of its pure core in Lean 4, together with
theorems checking the natural-language specification against it.

The embedded parts are:
  * the Python string operations the reply parser relies on
    (`str.strip`, `str.split('\n')`, `str.split(',', 1)`, `int(...)`),
    modelled over `List Char`;
  * `extract_prefecture_with_llm` (budget gate, model call as an oracle
    argument, token commit, reply parsing into prefecture labels);
  * `extract_headlines_with_beautifulsoup` (JSON-LD headline scan), with the
    HTML parse abstracted to the list of script blocks in document order and
    each block's JSON parse outcome given as an `Option Json`;
  * the pagination URL rule of the run-button page loop.
-/

/-- Model of Python `str.strip()`'s whitespace test on the characters that can
occur here (ASCII whitespace plus the ideographic space). -/
def pyIsSpace (c : Char) : Bool :=
  c = ' ' || c = '\t' || c = '\n' || c = '\r' || c = '\x0b' || c = '\x0c' || c = '　'

/-- Model of Python `str.strip()`: drop leading and trailing whitespace. -/
def pyStripList (cs : List Char) : List Char :=
  ((cs.dropWhile pyIsSpace).reverse.dropWhile pyIsSpace).reverse

/-- Model of Python `str.split(sep)` for a one-character separator with no
maxsplit: split on every occurrence; the empty string yields `[[]]`. -/
def pySplitChar (sep : Char) : List Char → List (List Char)
  | [] => [[]]
  | c :: cs =>
    match pySplitChar sep cs with
    | [] => [[c]]
    | r :: rs => if c = sep then [] :: r :: rs else (c :: r) :: rs

/-- Model of Python `str.split(sep, 1)` for a one-character separator, fused
with the `sep in line` membership test: `none` when the separator does not
occur, otherwise the part before the first occurrence and the part after it. -/
def pySplitFirst (sep : Char) : List Char → Option (List Char × List Char)
  | [] => none
  | c :: cs =>
    if c = sep then some ([], cs)
    else
      match pySplitFirst sep cs with
      | none => none
      | some (a, b) => some (c :: a, b)

/-- Accumulator pass over a decimal digit string; `none` on the first
non-digit character. -/
def digitsToNatAux (acc : Nat) : List Char → Option Nat
  | [] => some acc
  | c :: cs =>
    if c.isDigit then digitsToNatAux (acc * 10 + (c.toNat - '0'.toNat)) cs
    else none

/-- Model of Python `int(s)` on an already-stripped string: an optional sign
followed by at least one decimal digit, `none` (a `ValueError`) otherwise.
Simplification: CPython also accepts digit-group underscores and non-ASCII
decimal digits; those inputs are out of scope here. -/
def pyInt? : List Char → Option Int
  | [] => none
  | '+' :: rest => if rest = [] then none else (digitsToNatAux 0 rest).map Int.ofNat
  | '-' :: rest => if rest = [] then none else (digitsToNatAux 0 rest).map (fun n => -(n : Int))
  | cs => (digitsToNatAux 0 cs).map Int.ofNat

/-- Daily API usage cap, `DAILY_TOKEN_LIMIT` in `src/main.py`. -/
def DAILY_TOKEN_LIMIT : Nat := 15000

/-- The budget-exceeded message passed to `st.error` before `st.stop()`. -/
def budget_error_message : String :=
  "本日のAPI利用上限（約0.1ドル）に達しました。明日以降に再実行してください。"

/-- Effect of one reply line on the label array, translated from the body of
the `for line in response_text.strip().split('\n')` loop: strip the line; if
it contains a comma, split on the first comma, strip and int-parse the index
part (a failed parse is the caught `ValueError`), subtract 1, strip the label
part; return the zero-based position and label when `0 <= idx < H`, and
`none` (line silently discarded) in every other case. -/
def lineEffect (H : Nat) (rawLine : List Char) : Option (Nat × String) :=
  match pySplitFirst ',' (pyStripList rawLine) with
  | none => none
  | some (idxPart, labelPart) =>
    match pyInt? (pyStripList idxPart) with
    | none => none
    | some i =>
      if 0 ≤ i - 1 ∧ i - 1 < (H : Int) then
        some ((i - 1).toNat, String.mk (pyStripList labelPart))
      else none

/-- One iteration of the reply-parsing loop: apply a line's effect (if any)
to the current label array by in-place assignment `prefectures[idx] = pref`. -/
def applyLine (H : Nat) (prefectures : List String) (rawLine : List Char) : List String :=
  match lineEffect H rawLine with
  | none => prefectures
  | some (idx, pref) => prefectures.set idx pref

/-- The reply-parsing loop over a list of lines, starting from a given label
array. -/
def applyLines (H : Nat) (init : List String) (lines : List (List Char)) : List String :=
  lines.foldl (applyLine H) init

/-- Reply parsing in `extract_prefecture_with_llm`: initialise
`prefectures = ['不明'] * len(headlines)`, then run the line loop over
`response_text.strip().split('\n')`. -/
def parse_response (response_text : String) (H : Nat) : List String :=
  applyLines H (List.replicate H "不明") (pySplitChar '\n' (pyStripList response_text.data))

/-- Outcome of one call of `extract_prefecture_with_llm`, together with the
resulting `st.session_state.daily_tokens[TODAY]` counter. `halted` is the
`st.error` + `st.stop()` branch (the whole Streamlit run stops); `callError`
models an exception escaping from the OpenAI call, which the function does
not catch. -/
inductive RunOutcome where
  | halted (message : String) (daily_tokens : Nat)
  | callError (daily_tokens : Nat)
  | success (prefectures : List String) (daily_tokens : Nat)
deriving DecidableEq, Repr

/-- Final value of the usage counter after a call, whatever the outcome. -/
def final_daily_tokens : RunOutcome → Nat
  | RunOutcome.halted _ u => u
  | RunOutcome.callError u => u
  | RunOutcome.success _ u => u

/-- Shallow embedding of `extract_prefecture_with_llm`. The model call is an
oracle argument: `none` means the OpenAI request raised, `some t` means it
returned a message whose content is `t`. The source adds `estimated_tokens`
to the counter right after the call returns and before parsing; parsing is
total, so committing together with the parsed result is equivalent. -/
def extract_prefecture_with_llm (headlines : List String) (daily_tokens : Nat)
    (modelReply : Option String) : RunOutcome :=
  if daily_tokens + headlines.length * 120 > DAILY_TOKEN_LIMIT then
    RunOutcome.halted budget_error_message daily_tokens
  else
    match modelReply with
    | none => RunOutcome.callError daily_tokens
    | some response_text =>
      RunOutcome.success (parse_response response_text headlines.length)
        (daily_tokens + headlines.length * 120)

/-- Parsed JSON values, as produced by `json.loads` on a script block. The
numeric type is immaterial to the extractor, which never inspects numbers. -/
inductive Json where
  | null
  | bool (b : Bool)
  | num (n : Int)
  | str (s : String)
  | arr (elems : List Json)
  | obj (fields : List (String × Json))

/-- Python dict subscript on a parsed JSON object: `json.loads` lets a later
duplicate key overwrite an earlier one, so the last matching field wins. -/
def jsonLookup : List (String × Json) → String → Option Json
  | [], _ => none
  | (k, v) :: rest, key =>
    match jsonLookup rest key with
    | some w => some w
    | none => if k = key then some v else none

/-- The `try` body of the extraction loop for one script block. `none` input
models a failed `json.loads` (a `JSONDecodeError`, or the `TypeError` when
`script.string` is `None`). For a parsed non-object value, either
`'headline' in data` is false or the membership test / subscript raises a
`TypeError`, which the `except` clause also catches: every non-object case
collapses to a silent skip. An object contributes its `"headline"` value when
the key is present. -/
def tryHeadline : Option Json → Option Json
  | some (Json.obj fields) => jsonLookup fields "headline"
  | _ => none

/-- Shallow embedding of `extract_headlines_with_beautifulsoup`. The
BeautifulSoup call is abstracted: the input is the list of
`<script type="application/ld+json">` blocks in document order, each carrying
its JSON parse outcome. The loop appends to `headlines` exactly as the source
does. -/
def extract_headlines_with_beautifulsoup (scripts : List (Option Json)) : List Json :=
  scripts.foldl
    (fun headlines script =>
      match tryHeadline script with
      | some v => headlines ++ [v]
      | none => headlines)
    []

/-- URL of one page in the run-button loop: page 1 is the base URL verbatim,
page `k > 1` is `f"{base_url}{page}"`. -/
def pageUrl (base_url : String) (page : Nat) : String :=
  if page = 1 then base_url else base_url ++ toString page

/-- URLs fetched by `for page in range(1, page_count + 1)`, in order. -/
def pageUrls (base_url : String) (page_count : Nat) : List String :=
  (List.range' 1 page_count).map (pageUrl base_url)

/-- Modelled from the spec: the canonical Japanese prefecture names that the
PrefectureLabel data model refers to ("a canonical prefecture name, or the
sentinel 不明"). The source contains no such list — the spec's non-goals even
state there is "no validation of prefecture names against a canonical list" —
so the set is supplied here from the spec's terms to make the claim statable. -/
def canonical_prefectures : List String :=
  ["北海道", "青森県", "岩手県", "宮城県", "秋田県", "山形県", "福島県",
   "茨城県", "栃木県", "群馬県", "埼玉県", "千葉県", "東京都", "神奈川県",
   "新潟県", "富山県", "石川県", "福井県", "山梨県", "長野県", "岐阜県",
   "静岡県", "愛知県", "三重県", "滋賀県", "京都府", "大阪府", "兵庫県",
   "奈良県", "和歌山県", "鳥取県", "島根県", "岡山県", "広島県", "山口県",
   "徳島県", "香川県", "愛媛県", "高知県", "福岡県", "佐賀県", "長崎県",
   "熊本県", "大分県", "宮崎県", "鹿児島県", "沖縄県"]

/-- Modelled from the spec's parsing description, for comparison with the
code-derived `lineEffect`: "for each non-empty line containing a comma, split
on the first comma into an index part and a label part; attempt to parse the
index as an integer", and the line overwrites position `i - 1` with the
trimmed label exactly when `1 ≤ i ≤ H`. -/
def specLineUpdate (H : Nat) (rawLine : List Char) : Option (Nat × String) :=
  let line := pyStripList rawLine
  if line = [] then none
  else
    match pySplitFirst ',' line with
    | none => none
    | some (idxPart, labelPart) =>
      match pyInt? (pyStripList idxPart) with
      | none => none
      | some i =>
        if 1 ≤ i ∧ i ≤ (H : Int) then
          some ((i - 1).toNat, String.mk (pyStripList labelPart))
        else none

example : parse_response "1,Tokyo\n3,Osaka" 3 = ["Tokyo", "不明", "Osaka"] := by decide

example : parse_response "" 3 = ["不明", "不明", "不明"] := by decide

example : parse_response "5,Tokyo\nfoo,bar\n2,Osaka" 3 = ["不明", "Osaka", "不明"] := by decide

example : parse_response "1,A\n1,B" 1 = ["B"] := by decide

example : parse_response "0,Evil\n-1,Evil" 2 = ["不明", "不明"] := by decide

example :
    extract_headlines_with_beautifulsoup
      [some (Json.obj [("headline", Json.str "A")]),
       none,
       some (Json.obj [("name", Json.str "x")]),
       some (Json.str "headline"),
       some (Json.arr [Json.str "headline"]),
       some (Json.obj [("headline", Json.str "B")])]
    = [Json.str "A", Json.str "B"] := rfl

example :
    pageUrls "https://x.test/list" 3
    = ["https://x.test/list", "https://x.test/list2", "https://x.test/list3"] := by decide

example : specLineUpdate 3 "2, Osaka ".data = some (1, "Osaka") := by decide

example : lineEffect 3 "2, Osaka ".data = some (1, "Osaka") := by decide

/-! Helper lemmas shared by the claim theorems. -/

theorem applyLine_length (H : Nat) (s : List String) (l : List Char) :
    (applyLine H s l).length = s.length := by
  unfold applyLine
  cases lineEffect H l with
  | none => rfl
  | some p => cases p with
    | mk idx pref => simp [List.length_set]

theorem applyLines_length (H : Nat) (lines : List (List Char)) (init : List String) :
    (applyLines H init lines).length = init.length := by
  induction lines generalizing init with
  | nil => rfl
  | cons l ls ih =>
    show (applyLines H (applyLine H init l) ls).length = init.length
    rw [ih, applyLine_length]

theorem parse_response_length (response_text : String) (H : Nat) :
    (parse_response response_text H).length = H := by
  unfold parse_response
  rw [applyLines_length, List.length_replicate]

/-- Position and range facts carried by a successful `lineEffect`. -/
theorem lineEffect_pos_lt (H : Nat) (l : List Char) (p : Nat) (v : String)
    (h : lineEffect H l = some (p, v)) : p < H := by
  unfold lineEffect at h
  rcases hsplit : pySplitFirst ',' (pyStripList l) with _ | ⟨idxPart, labelPart⟩
  · rw [hsplit] at h
    exact Option.noConfusion h
  · simp only [hsplit] at h
    rcases hint : pyInt? (pyStripList idxPart) with _ | i
    · simp only [hint] at h
      exact Option.noConfusion h
    · simp only [hint] at h
      split at h
      · rename_i hrange
        injection h with h1
        injection h1 with hp hv
        omega
      · exact Option.noConfusion h

/-- Claim C1 — for every headline list, usage value and model reply, a
successful classification returns exactly as many labels as there are
headlines; the label array starts as `len(headlines)` copies of 不明 inside
`parse_response`, and line application preserves length, so no position is
ever left unfilled. -/
theorem c1_label_array_invariant (headlines : List String) (daily_tokens : Nat)
    (modelReply : Option String) (labels : List String) (u : Nat)
    (h : extract_prefecture_with_llm headlines daily_tokens modelReply
      = RunOutcome.success labels u) :
    labels.length = headlines.length := by
  unfold extract_prefecture_with_llm at h
  split at h
  · exact RunOutcome.noConfusion h
  · cases modelReply with
    | none => exact RunOutcome.noConfusion h
    | some r =>
      injection h with h1 h2
      rw [← h1, parse_response_length]

/-- Witness for C1 at a concrete input. -/
theorem c1_label_array_invariant_witness :
    (["X"] : List String).length = (["A"] : List String).length :=
  c1_label_array_invariant ["A"] 0 (some "1,X") ["X"] 120 (by decide)

/-- Claim C3 — the budget gate lets the call through exactly when
`U + len(headlines) * 120 ≤ 15000`; when it refuses, the outcome is the hard
stop with the budget-exceeded message, the same for every oracle reply (so no
model call is issued), and the usage counter is left at `U`. -/
theorem c3_budget_gate (headlines : List String) (U : Nat) (modelReply : Option String) :
    ((U + headlines.length * 120 ≤ DAILY_TOKEN_LIMIT) ↔
      ∀ m u, extract_prefecture_with_llm headlines U modelReply ≠ RunOutcome.halted m u) ∧
    (DAILY_TOKEN_LIMIT < U + headlines.length * 120 →
      extract_prefecture_with_llm headlines U modelReply
        = RunOutcome.halted budget_error_message U) := by
  constructor
  · constructor
    · intro hle m u hcontra
      unfold extract_prefecture_with_llm at hcontra
      rw [if_neg (by omega)] at hcontra
      cases modelReply with
      | none => exact RunOutcome.noConfusion hcontra
      | some r => exact RunOutcome.noConfusion hcontra
    · intro hall
      by_contra hgt
      push_neg at hgt
      refine hall budget_error_message U ?_
      unfold extract_prefecture_with_llm
      rw [if_pos (by omega)]
  · intro hgt
    unfold extract_prefecture_with_llm
    rw [if_pos (by omega)]

/-- Witness for C3 at a concrete input: with 15000 tokens already used, one
headline is refused and usage stays at 15000. -/
theorem c3_budget_gate_witness :
    extract_prefecture_with_llm ["A"] 15000 none
      = RunOutcome.halted budget_error_message 15000 :=
  (c3_budget_gate ["A"] 15000 none).2 (by decide)

/-- Claim C6 — a successful call commits exactly the check-time estimate
`len(headlines) * 120` to the usage counter, and a failing model call (oracle
`none`) leaves the counter unchanged, whether the failure is the exception
propagating or the earlier budget stop. -/
theorem c6_commit_estimate (headlines : List String) (U : Nat) :
    (∀ r labels u,
      extract_prefecture_with_llm headlines U (some r) = RunOutcome.success labels u →
        u = U + headlines.length * 120) ∧
    (extract_prefecture_with_llm headlines U none = RunOutcome.callError U ∨
      extract_prefecture_with_llm headlines U none
        = RunOutcome.halted budget_error_message U) := by
  constructor
  · intro r labels u h
    unfold extract_prefecture_with_llm at h
    split at h
    · exact RunOutcome.noConfusion h
    · injection h with h1 h2
      exact h2.symm
  · unfold extract_prefecture_with_llm
    split
    · exact Or.inr rfl
    · exact Or.inl rfl

/-- Witness for C6 at a concrete input. -/
theorem c6_commit_estimate_witness :
    (120 : Nat) = 0 + (["A"] : List String).length * 120 :=
  (c6_commit_estimate ["A"] 0).1 "1,X" ["X"] 120 (by decide)

/-- Claim C8 — the usage counter never decreases across a call: the check
leaves it unchanged, and the only write adds the non-negative estimate. -/
theorem c8_usage_monotone (headlines : List String) (U : Nat) (modelReply : Option String) :
    U ≤ final_daily_tokens (extract_prefecture_with_llm headlines U modelReply) := by
  unfold extract_prefecture_with_llm
  split
  · exact Nat.le_refl U
  · cases modelReply with
    | none => exact Nat.le_refl U
    | some r => exact Nat.le_add_right U (headlines.length * 120)

/-- Claim C5 — the page loop visits exactly `page_count` URLs in order, page 1
being the base URL verbatim and page `k > 1` the base URL with the decimal
page number appended, as on the spec's three-page example. -/
theorem c5_pagination_urls (base_url : String) (page_count : Nat) :
    (pageUrls base_url page_count).length = page_count ∧
    (∀ k, k < page_count →
      (pageUrls base_url page_count)[k]?
        = some (if k = 0 then base_url else base_url ++ toString (k + 1))) ∧
    pageUrls "https://x.test/list" 3
      = ["https://x.test/list", "https://x.test/list2", "https://x.test/list3"] := by
  refine ⟨by simp [pageUrls, List.length_range'], ?_, by decide⟩
  intro k hk
  unfold pageUrls
  rw [List.getElem?_map, List.getElem?_range' 1 1 hk]
  cases k with
  | zero => simp [pageUrl]
  | succ j =>
    have h1 : 1 + 1 * (j + 1) = j + 2 := by omega
    rw [h1]
    simp only [Option.map_some']
    have h2 : pageUrl base_url (j + 2) = base_url ++ toString (j + 2) := if_neg (by omega)
    rw [h2, if_neg (by omega)]

/-- Witness for C5 at a concrete input: the second fetched URL of a three-page
run. -/
theorem c5_pagination_urls_witness :
    (pageUrls "https://x.test/list" 3)[1]? = some "https://x.test/list2" := by
  have h := (c5_pagination_urls "https://x.test/list" 3).2.1 1 (by decide)
  rw [h]
  decide

/-- Claim C10 — a reply line whose index part parses to an integer `i ≤ 0`
never modifies the label array: the zero-based position `i - 1` is negative,
so the `0 <= idx` bound fails and the line is discarded. -/
theorem c10_nonpositive_index_discarded (H : Nat) (init : List String)
    (rawLine idxPart labelPart : List Char) (i : Int)
    (hsplit : pySplitFirst ',' (pyStripList rawLine) = some (idxPart, labelPart))
    (hparse : pyInt? (pyStripList idxPart) = some i)
    (hi : i ≤ 0) :
    applyLine H init rawLine = init := by
  unfold applyLine lineEffect
  simp only [hsplit, hparse]
  rw [if_neg (by omega)]

/-- Witness for C10 at a concrete input: the line `0,Evil` leaves a three-slot
label array untouched. -/
theorem c10_nonpositive_index_discarded_witness :
    applyLine 3 ["a", "b", "c"] "0,Evil".data = ["a", "b", "c"] :=
  c10_nonpositive_index_discarded 3 ["a", "b", "c"] "0,Evil".data
    "0".data "Evil".data 0 (by decide) (by decide) (by decide)

/-- The code's per-line behaviour coincides with the spec's description of it:
the source checks `0 <= idx < H` on `idx = i - 1`, the spec asks `1 ≤ i ≤ H`
on the one-based index; the spec's "non-empty line" guard is subsumed by the
comma test, since an empty line contains no comma. -/
theorem lineEffect_eq_specLineUpdate (H : Nat) (l : List Char) :
    lineEffect H l = specLineUpdate H l := by
  unfold lineEffect specLineUpdate
  by_cases hnil : pyStripList l = []
  · rw [hnil]
    rfl
  · rw [if_neg hnil]
    rcases hsplit : pySplitFirst ',' (pyStripList l) with _ | ⟨idxPart, labelPart⟩ <;>
      simp only [hsplit]
    rcases hint : pyInt? (pyStripList idxPart) with _ | i <;> simp only [hint]
    by_cases hr : 0 ≤ i - 1 ∧ i - 1 < (H : Int)
    · rw [if_pos hr, if_pos (by omega)]
    · rw [if_neg hr, if_neg (by omega)]

/-- Lines with no effect leave the label array untouched, wherever they occur
in the reply. -/
theorem applyLines_of_none (H : Nat) (lines : List (List Char)) (init : List String)
    (hall : ∀ l ∈ lines, lineEffect H l = none) : applyLines H init lines = init := by
  induction lines generalizing init with
  | nil => rfl
  | cons l ls ih =>
    show applyLines H (applyLine H init l) ls = init
    have h1 : applyLine H init l = init := by
      unfold applyLine
      rw [hall l (List.mem_cons_self l ls)]
    rw [h1]
    exact ih init (fun l' hl' => hall l' (List.mem_cons_of_mem l hl'))

/-- Claim C2 — line-by-line reply parsing: each line's effect is exactly the
spec's "split on the first comma, parse the index as an integer `i`, and for
`1 ≤ i ≤ H` overwrite position `i - 1` with the trimmed label, else silently
discard"; a reply whose lines all fail to parse leaves every position at
不明, the empty reply yields all-不明, and the spec's three-headline example
merges to `["Tokyo", 不明, "Osaka"]`. -/
theorem c2_reply_line_parsing (H : Nat) :
    (∀ l, lineEffect H l = specLineUpdate H l) ∧
    (∀ r : String, (∀ l ∈ pySplitChar '\n' (pyStripList r.data), lineEffect H l = none) →
      parse_response r H = List.replicate H "不明") ∧
    parse_response "" H = List.replicate H "不明" ∧
    parse_response "1,Tokyo\n3,Osaka" 3 = ["Tokyo", "不明", "Osaka"] := by
  refine ⟨fun l => lineEffect_eq_specLineUpdate H l, ?_, rfl, by decide⟩
  intro r hall
  unfold parse_response
  exact applyLines_of_none H _ _ hall

/-- Witness for C2 at a concrete input: a reply with no valid line leaves
three headlines all-不明. -/
theorem c2_reply_line_parsing_witness :
    parse_response "no valid lines here" 3 = List.replicate 3 "不明" :=
  (c2_reply_line_parsing 3).2.1 "no valid lines here" (by decide)

/-- Positions no line of a suffix targets keep their value across that
suffix. -/
theorem applyLines_getElem?_untargeted (H : Nat) (p : Nat) (lines : List (List Char))
    (init : List String)
    (hnone : ∀ l ∈ lines, ∀ w, lineEffect H l ≠ some (p, w)) :
    (applyLines H init lines)[p]? = init[p]? := by
  induction lines generalizing init with
  | nil => rfl
  | cons l ls ih =>
    show (applyLines H (applyLine H init l) ls)[p]? = init[p]?
    rw [ih (applyLine H init l) (fun l' h' w => hnone l' (List.mem_cons_of_mem l h') w)]
    rcases he : lineEffect H l with _ | ⟨q, w⟩
    · unfold applyLine
      rw [he]
    · have hq : q ≠ p := fun hqp => hnone l (List.mem_cons_self l ls) w (hqp ▸ he)
      unfold applyLine
      rw [he]
      exact List.getElem?_set_ne hq

/-- Claim C7 — duplicate indices are resolved deterministically by sequential
overwrite: if the reply splits into `pre ++ line :: post`, `line` validly
targets position `p`, and no line of `post` targets `p`, then the final label
at `p` is the one `line` carries — the last occurrence wins. -/
theorem c7_duplicate_index_last_wins (r : String) (H : Nat)
    (pre post : List (List Char)) (line : List Char) (p : Nat) (v : String)
    (hsplit : pySplitChar '\n' (pyStripList r.data) = pre ++ line :: post)
    (hline : lineEffect H line = some (p, v))
    (hpost : ∀ l ∈ post, ∀ w, lineEffect H l ≠ some (p, w)) :
    (parse_response r H)[p]? = some v := by
  have hstep : (applyLine H (applyLines H (List.replicate H "不明") pre) line)[p]? = some v := by
    unfold applyLine
    rw [hline]
    refine List.getElem?_set_self ?_
    rw [applyLines_length, List.length_replicate]
    exact lineEffect_pos_lt H line p v hline
  calc (parse_response r H)[p]?
      = (applyLines H (applyLine H (applyLines H (List.replicate H "不明") pre) line)
          post)[p]? := by
        unfold parse_response applyLines
        rw [hsplit, List.foldl_append, List.foldl_cons]
    _ = (applyLine H (applyLines H (List.replicate H "不明") pre) line)[p]? :=
        applyLines_getElem?_untargeted H p post _ hpost
    _ = some v := hstep

/-- Witness for C7 at a concrete input: in the reply `1,A` then `1,B` for one
headline, the later line wins. -/
theorem c7_duplicate_index_last_wins_witness :
    (parse_response "1,A\n1,B" 1)[0]? = some "B" :=
  c7_duplicate_index_last_wins "1,A\n1,B" 1 [['1', ',', 'A']] [] ['1', ',', 'B'] 0 "B"
    (by decide) (by decide) (by simp)

/-- The extraction loop with an arbitrary accumulator appends, in document
order, the headline of every block the loop body accepts. -/
theorem extract_foldl_eq_filterMap (scripts : List (Option Json)) (acc : List Json) :
    scripts.foldl
      (fun headlines script =>
        match tryHeadline script with
        | some v => headlines ++ [v]
        | none => headlines) acc
      = acc ++ scripts.filterMap tryHeadline := by
  induction scripts generalizing acc with
  | nil => simp
  | cons s ss ih =>
    rw [List.foldl_cons, List.filterMap_cons]
    rcases h : tryHeadline s with _ | v <;> simp only [h]
    · exact ih acc
    · rw [ih (acc ++ [v]), List.append_assoc, List.singleton_append]

/-- Claim C4 — the extractor returns exactly the headline values of the
qualifying script blocks (valid JSON objects with a `headline` key) in
document order; invalid or key-less blocks are skipped without aborting the
scan, and the result is the empty list when no block qualifies, as on a mixed
concrete document. -/
theorem c4_extraction_order_and_tolerance (scripts : List (Option Json)) :
    extract_headlines_with_beautifulsoup scripts = scripts.filterMap tryHeadline ∧
    ((∀ s ∈ scripts, tryHeadline s = none) →
      extract_headlines_with_beautifulsoup scripts = []) ∧
    extract_headlines_with_beautifulsoup
      [some (Json.obj [("headline", Json.str "A")]),
       none,
       some (Json.obj [("name", Json.str "x")]),
       some (Json.str "headline"),
       some (Json.arr [Json.str "headline"]),
       some (Json.obj [("headline", Json.str "B")])]
    = [Json.str "A", Json.str "B"] := by
  have hmain : extract_headlines_with_beautifulsoup scripts
      = scripts.filterMap tryHeadline := by
    unfold extract_headlines_with_beautifulsoup
    simpa using extract_foldl_eq_filterMap scripts []
  refine ⟨hmain, ?_, rfl⟩
  intro hall
  rw [hmain]
  exact List.filterMap_eq_nil_iff.mpr hall

/-- Witness for C4 at a concrete input: a document whose only block is
invalid JSON extracts to the empty list. -/
theorem c4_extraction_order_and_tolerance_witness :
    extract_headlines_with_beautifulsoup [none] = [] :=
  (c4_extraction_order_and_tolerance [none]).2.1 (by
    intro s hs
    simp only [List.mem_singleton] at hs
    rw [hs]
    rfl)

/-- Claim C9 as stated is false of the code: the parser installs whatever
trimmed text follows the comma, with no validation against the canonical
prefecture list, so a reply line `1,hello` puts the label `hello` — neither a
canonical prefecture name nor the sentinel 不明 — into the result. -/
theorem c9_counterexample :
    extract_prefecture_with_llm ["A"] 0 (some "1,hello")
      = RunOutcome.success ["hello"] 120 ∧
    "hello" ∉ canonical_prefectures ∧ "hello" ≠ "不明" :=
  ⟨by decide, by decide, by decide⟩

/-- Labels in the parsed array come from the initial 不明 fill or from some
reply line's effect. -/
theorem mem_applyLines (H : Nat) (lines : List (List Char)) (init : List String) :
    ∀ x ∈ applyLines H init lines,
      x ∈ init ∨ ∃ l ∈ lines, ∃ q, lineEffect H l = some (q, x) := by
  induction lines generalizing init with
  | nil => exact fun x hx => Or.inl hx
  | cons l ls ih =>
    intro x hx
    rcases ih (applyLine H init l) x hx with hmem | ⟨l', hl', q, he⟩
    · rcases he : lineEffect H l with _ | ⟨q, w⟩
      · unfold applyLine at hmem
        rw [he] at hmem
        exact Or.inl hmem
      · unfold applyLine at hmem
        rw [he] at hmem
        rcases List.mem_or_eq_of_mem_set hmem with h1 | h2
        · exact Or.inl h1
        · exact Or.inr ⟨l, List.mem_cons_self l ls, q, by rw [h2]; exact he⟩
    · exact Or.inr ⟨l', List.mem_cons_of_mem l hl', q, he⟩

/-- Claim C9 amended — every label a successful classification returns is
either the sentinel 不明 or the trimmed label text carried by some line of
the model reply; the code performs no validation against a canonical
prefecture list (the spec's stated non-goal). -/
theorem c9_labels_unknown_or_from_reply (headlines : List String) (daily_tokens : Nat)
    (modelReply : Option String) (labels : List String) (u : Nat)
    (h : extract_prefecture_with_llm headlines daily_tokens modelReply
      = RunOutcome.success labels u) :
    ∃ r, modelReply = some r ∧
      ∀ lab ∈ labels, lab = "不明" ∨
        ∃ line ∈ pySplitChar '\n' (pyStripList r.data),
          ∃ q, lineEffect headlines.length line = some (q, lab) := by
  unfold extract_prefecture_with_llm at h
  split at h
  · exact RunOutcome.noConfusion h
  · cases modelReply with
    | none => exact RunOutcome.noConfusion h
    | some r =>
      injection h with h1 h2
      refine ⟨r, rfl, ?_⟩
      intro lab hlab
      rw [← h1] at hlab
      unfold parse_response at hlab
      rcases mem_applyLines headlines.length _ _ lab hlab with hinit | ⟨line, hline, q, he⟩
      · exact Or.inl (List.eq_of_mem_replicate hinit)
      · exact Or.inr ⟨line, hline, q, he⟩

/-- Witness for the amended C9 at a concrete input. -/
theorem c9_labels_unknown_or_from_reply_witness :
    ∃ r, (some "1,hello" : Option String) = some r ∧
      ∀ lab ∈ (["hello"] : List String), lab = "不明" ∨
        ∃ line ∈ pySplitChar '\n' (pyStripList r.data),
          ∃ q, lineEffect (["A"] : List String).length line = some (q, lab) :=
  c9_labels_unknown_or_from_reply ["A"] 0 (some "1,hello") ["hello"] 120 (by decide)
